import Mathlib

/-
  Verification of the client-side behavior layer of the Notepad_app repository.

  The repository ships two variants of the same browser script:
  - src/static/script.js (namespace ScriptJs below): SSE-stream reminder
    notifications, multi-theme switcher backed by a theme table.
  - src/unnamed/part_000 (namespace Part000 below): polling reminder
    notifications, dark-mode toggle, active/completed view toggle, and two
    file-upload UI variants.

  Pure fragments of the JavaScript are embedded as Lean functions; stateful
  DOM behavior is embedded as explicit state passing over record types.
  JavaScript string truthiness (empty string and null/undefined are falsy)
  is modelled on Option String.
-/

namespace Notepad

/-- JavaScript truthiness of a possibly-absent string: null/undefined and
the empty string are falsy, every other string is truthy. -/
def jsTruthyStr : Option String → Bool
  | none => false
  | some s => !(s == "")

/-- The JavaScript expression `v || d` on a possibly-absent string `v`. -/
def jsOrStr : Option String → String → String
  | none, d => d
  | some s, d => if s = "" then d else s

/-- A reminder record as delivered by the backend: `{id, title, content}`,
with title and content possibly absent. -/
structure Reminder where
  id : Nat
  title : Option String
  content : Option String
deriving DecidableEq, Repr

/-- An HTTP request issued by the client script. -/
inductive Request where
  | remindedPost : Nat → Request
  | donePost : Nat → Request
  | fetchHtml : String → Request
deriving DecidableEq, Repr

/-- Is this request the acknowledgment `POST /reminded/{noteId}`? -/
def isRemindedPost (noteId : Nat) : Request → Bool
  | .remindedPost i => i == noteId
  | _ => false

/-- Number of `POST /reminded/{noteId}` requests in a request trace. -/
def remindedCount (reqs : List Request) (noteId : Nat) : Nat :=
  (reqs.filter (isRemindedPost noteId)).length

/-- The `POST /reminded/...` requests of a trace, in order. -/
def remindedPosts (reqs : List Request) : List Request :=
  reqs.filter fun q => match q with
    | .remindedPost _ => true
    | _ => false

/-- The text shown by a reminder popup: its title element and content element. -/
structure PopupDisplay where
  title : String
  content : String
deriving DecidableEq, Repr

/-- How the user finishes with one shown popup. After `closePopup` removes
the popup from the DOM its buttons can no longer be clicked, so at most one
of the two click handlers runs; otherwise only the auto-close timeout acts. -/
inductive PopupAction where
  | dismiss
  | markDone
  | autoCloseOnly
deriving DecidableEq, Repr

/-- Popup lifecycle state shared by both `showPopup` implementations:
whether the popup element is attached to the document, and whether the
2-minute auto-close `setTimeout` is still pending. -/
structure PopupState where
  attached : Bool
  timerPending : Bool
deriving DecidableEq, Repr

/-- State right after `showPopup` appends the popup and schedules
`setTimeout(closePopup, 120000)`. -/
def showPopupState : PopupState :=
  { attached := true, timerPending := true }

/-- The `closePopup = () => popup.remove()` callback: detaches the popup.
Calling `Element.remove` on an already-detached element is a no-op, so this
is idempotent. -/
def closePopup (s : PopupState) : PopupState :=
  { s with attached := false }

/-- Early close by the dismiss or mark-done click handler. Both handlers
call `closePopup` only; neither source file ever calls `clearTimeout`,
so the pending auto-close timer is left untouched. -/
def userClose (s : PopupState) : PopupState :=
  closePopup s

/-- The auto-close timeout fires: its callback `closePopup` runs and the
timer is no longer pending. -/
def timerFire (s : PopupState) : PopupState :=
  { closePopup s with timerPending := false }

namespace ScriptJs

/-- src/static/script.js, showPopup: title element text `title || "Reminder"`
and content element text
`content ? (content.length > 200 ? content.slice(0, 200) + "…" : content) : "No content"`. -/
def popupDisplay (title content : Option String) : PopupDisplay :=
  { title := jsOrStr title "Reminder",
    content :=
      if jsTruthyStr content then
        let c := content.getD ""
        if c.length > 200 then c.take 200 ++ "…" else c
      else "No content" }

/-- src/static/script.js, showPopup: body text of the browser Notification,
the same conditional expression as the popup content. -/
def notificationBody (content : Option String) : String :=
  if jsTruthyStr content then
    let c := content.getD ""
    if c.length > 200 then c.take 200 ++ "…" else c
  else "No content"

/-- src/static/script.js, showPopup: title of the browser Notification,
`title || "Reminder"`. -/
def notificationTitle (title : Option String) : String :=
  jsOrStr title "Reminder"

/-- Requests issued when the SSE handler receives one reminder:
`showPopup` fetches `partials/popup_partial.html`, then the handler sends
`safeFetch('/reminded/' + reminder.id, POST)`. -/
def receiptRequests (r : Reminder) : List Request :=
  [.fetchHtml "partials/popup_partial.html", .remindedPost r.id]

/-- Requests issued by the popup's click handlers: dismiss posts
`/reminded/{id}`; mark-done posts `/done/{id}` then `/reminded/{id}`;
the auto-close timeout posts nothing. -/
def popupActionRequests (noteId : Nat) : PopupAction → List Request
  | .dismiss => [.remindedPost noteId]
  | .markDone => [.donePost noteId, .remindedPost noteId]
  | .autoCloseOnly => []

/-- Full request trace of handling one reminder delivered over the stream:
the receipt requests followed by the requests of the user's popup action. -/
def handleReminder (r : Reminder) (a : PopupAction) : List Request :=
  receiptRequests r ++ popupActionRequests r.id a

/-- A parsed message from the `/notifications` event stream, by its
`type` field. -/
inductive StreamMessage where
  | connected
  | heartbeat
  | reminders : List Reminder → StreamMessage
  | error : String → StreamMessage
  | other : String → StreamMessage
deriving DecidableEq, Repr

/-- Page-visible effects of one `onmessage` invocation: the HTTP requests it
issues and the popups it shows. -/
structure StreamEffects where
  requests : List Request
  popupsShown : List PopupDisplay
deriving DecidableEq, Repr

/-- src/static/script.js, setupNotifications `eventSource.onmessage`:
`connected`, `heartbeat` and `error` messages only log to the console;
a `reminders` message shows a popup and posts `/reminded/{id}` for each
reminder in its data; a message of any other type does nothing. -/
def onmessage : StreamMessage → StreamEffects
  | .connected => { requests := [], popupsShown := [] }
  | .heartbeat => { requests := [], popupsShown := [] }
  | .reminders data =>
      { requests := (data.map receiptRequests).flatten,
        popupsShown := data.map fun r => popupDisplay r.title r.content }
  | .error _ => { requests := [], popupsShown := [] }
  | .other _ => { requests := [], popupsShown := [] }

/-- Does a stream message have `type === 'reminders'`? -/
def isReminders : StreamMessage → Bool
  | .reminders _ => true
  | _ => false

/-- src/static/script.js, the `themes` table: theme name to its
(desktop stylesheet, mobile stylesheet) pair. -/
def themes (name : String) : Option (String × String) :=
  if name = "default" then some ("/static/style1.css", "/static/style1_mobile.css")
  else if name = "matrix" then some ("/static/style2.css", "/static/style2_mobile.css")
  else if name = "light" then some ("/static/style3.css", "/static/style3_mobile.css")
  else none

/-- src/static/script.js: `const themeOrder = ["matrix", "light"]`. -/
def themeOrder : List String := ["matrix", "light"]

/-- State of the multi-theme variant: the `currentTheme` closure variable,
the `localStorage` entry under key "themeName", and the `href` of the theme
`<link>` element. -/
structure ThemeState where
  currentTheme : String
  storedThemeName : Option String
  themeLinkHref : String
deriving DecidableEq, Repr

/-- src/static/script.js, applyTheme(name): an unknown name falls back to
"matrix"; the desktop or mobile stylesheet of the (corrected) name becomes
the link href and the (corrected) name is written to
`localStorage["themeName"]`. `currentTheme` is not touched. -/
def applyTheme (mobile : Bool) (name : String) (s : ThemeState) : ThemeState :=
  let n := if (themes name).isSome then name else "matrix"
  let pair := (themes n).getD ("", "")
  { s with themeLinkHref := if mobile then pair.2 else pair.1,
           storedThemeName := some n }

/-- src/static/script.js, initTheme page-load path:
`currentTheme = localStorage.getItem("themeName") || "matrix"` followed by
the initial `applyTheme(currentTheme)`. -/
def initThemeLoad (mobile : Bool) (stored : Option String) : ThemeState :=
  let current := jsOrStr stored "matrix"
  applyTheme mobile current
    { currentTheme := current, storedThemeName := stored, themeLinkHref := "" }

/-- JavaScript `Array.prototype.indexOf` on a string list: index of the
first occurrence, or -1. -/
def jsIndexOfAux (x : String) : List String → Int → Int
  | [], _ => -1
  | y :: ys, i => if x = y then i else jsIndexOfAux x ys (i + 1)

/-- JavaScript `l.indexOf(x)` for a string array. -/
def jsIndexOf (l : List String) (x : String) : Int :=
  jsIndexOfAux x l 0

/-- src/static/script.js, the theme-switch button click handler:
`idx = themeOrder.indexOf(currentTheme)`, `next = (idx + 1) % themeOrder.length`,
`currentTheme = themeOrder[next]`, then `applyTheme(currentTheme)`.
All dividends `idx + 1` are nonnegative here, so JavaScript `%` agrees
with `Int.emod`. -/
def switchClick (mobile : Bool) (s : ThemeState) : ThemeState :=
  let idx := jsIndexOf themeOrder s.currentTheme
  let next := ((idx + 1) % (themeOrder.length : Int)).toNat
  let newName := themeOrder.getD next ""
  applyTheme mobile newName { s with currentTheme := newName }

end ScriptJs

namespace Part000

/-- src/unnamed/part_000, showPopup lines 154-156: the same title and content
text computation as the stream variant's popup. -/
def popupDisplay (title content : Option String) : PopupDisplay :=
  { title := jsOrStr title "Reminder",
    content :=
      if jsTruthyStr content then
        let c := content.getD ""
        if c.length > 200 then c.take 200 ++ "…" else c
      else "No content" }

/-- src/unnamed/part_000, checkForReminders lines 118-123: body text of the
browser Notification shown inline before the popup. -/
def notificationBody (content : Option String) : String :=
  if jsTruthyStr content then
    let c := content.getD ""
    if c.length > 200 then c.take 200 ++ "…" else c
  else "No content"

/-- src/unnamed/part_000, checkForReminders: title of the browser
Notification, `reminder.title || "Reminder"`. -/
def notificationTitle (title : Option String) : String :=
  jsOrStr title "Reminder"

/-- Requests issued when the polling handler processes one reminder from the
`/get_reminders` response: `showPopup` fetches `/partials/popup_partial.html`,
then the handler sends `fetch('/reminded/' + reminder.id, POST)`. -/
def receiptRequests (r : Reminder) : List Request :=
  [.fetchHtml "/partials/popup_partial.html", .remindedPost r.id]

/-- Requests issued by the polling variant's popup click handlers: identical
shape to the stream variant (dismiss posts `/reminded/{id}`, mark-done posts
`/done/{id}` then `/reminded/{id}`). -/
def popupActionRequests (noteId : Nat) : PopupAction → List Request
  | .dismiss => [.remindedPost noteId]
  | .markDone => [.donePost noteId, .remindedPost noteId]
  | .autoCloseOnly => []

/-- Full request trace of handling one polled reminder. -/
def handleReminder (r : Reminder) (a : PopupAction) : List Request :=
  receiptRequests r ++ popupActionRequests r.id a

/-- State of the dark-toggle theme variant: whether `<body>` carries the
`dark-theme` class, and the `localStorage` entry under key "theme". -/
structure DarkThemeState where
  darkClass : Bool
  storedTheme : Option String
deriving DecidableEq, Repr

/-- src/unnamed/part_000, initTheme page-load path: the body starts without
the class; it is added exactly when `localStorage.getItem("theme") === "dark"`. -/
def initThemeLoad (stored : Option String) : DarkThemeState :=
  { darkClass := stored == some "dark", storedTheme := stored }

/-- src/unnamed/part_000, the theme-switch click handler: toggle the
`dark-theme` class, then store "dark" if the class is now present and
"light" otherwise. -/
def themeToggleClick (s : DarkThemeState) : DarkThemeState :=
  let dark := !s.darkClass
  { darkClass := dark, storedTheme := some (if dark then "dark" else "light") }

/-- State of the active/completed note view toggle: the `showingCompleted`
closure flag, the two containers' `style.display` values, the toggle
button's label, and the search input's value. -/
structure NoteViewState where
  showingCompleted : Bool
  activeDisplay : String
  completedDisplay : String
  toggleLabel : String
  searchValue : String
deriving DecidableEq, Repr

/-- src/unnamed/part_000, switchView: flip `showingCompleted`; show exactly
one container; relabel the button with the text naming the now-hidden view
(`data-view-active` when the active view is hidden, `data-view-completed`
when the completed view is hidden); clear the search input. -/
def switchView (viewActiveText viewCompletedText : String)
    (s : NoteViewState) : NoteViewState :=
  let sc := !s.showingCompleted
  if sc then
    { showingCompleted := sc, activeDisplay := "none",
      completedDisplay := "block", toggleLabel := viewActiveText,
      searchValue := "" }
  else
    { showingCompleted := sc, activeDisplay := "block",
      completedDisplay := "none", toggleLabel := viewCompletedText,
      searchValue := "" }

/-- JSON body of the `/upload_file/{noteId}` response, as the client reads
it: `ok`, `file_id` and `filename` fields. -/
structure UploadRes where
  ok : Bool
  file_id : Nat
  filename : String
deriving DecidableEq, Repr

/-- Outcome of the upload request, as the client's promise chain sees it:
either a parsed JSON response, or a rejection (network failure or a body
that is not JSON). -/
inductive UploadOutcome where
  | response : UploadRes → UploadOutcome
  | networkError : UploadOutcome
deriving DecidableEq, Repr

/-- One entry appended to the attached-files container: the `data-file-id`
attribute and the file-name span's text. -/
structure FileItem where
  file_id : Nat
  filename : String
deriving DecidableEq, Repr

/-- UI state of one file-attachment area: the progress container's
visibility, the progress bar's width in percent, the progress text, the
attached-files list, and the delay (ms) of a scheduled hide timeout, if any. -/
structure UploadAreaState where
  progressVisible : Bool
  progressWidth : Nat
  progressText : String
  attachedFiles : List FileItem
  hideDelay : Option Nat
deriving DecidableEq, Repr

/-- src/unnamed/part_000, handleFiles: with an empty file list, return at
once. Otherwise show the progress container at width 0% with text
"Uploading...", send the upload, and then: on a response with `ok` true set
width 100%, text "Upload complete!", append a file item carrying the
returned `file_id` and `filename`, and schedule hiding after 1500 ms; on a
response with `ok` false (which throws into the catch) or on a rejected
request, set width 0%, text "Upload failed. Please try again.", and schedule
hiding after 3000 ms. -/
def handleFiles (filesLen : Nat) (outcome : UploadOutcome)
    (s : UploadAreaState) : UploadAreaState :=
  if filesLen = 0 then s
  else
    let shown : UploadAreaState :=
      { s with progressVisible := true, progressWidth := 0,
               progressText := "Uploading...", hideDelay := none }
    match outcome with
    | .response d =>
      if d.ok then
        { shown with progressWidth := 100,
                     progressText := "Upload complete!",
                     attachedFiles := shown.attachedFiles
                       ++ [{ file_id := d.file_id, filename := d.filename }],
                     hideDelay := some 1500 }
      else
        { shown with progressWidth := 0,
                     progressText := "Upload failed. Please try again.",
                     hideDelay := some 3000 }
    | .networkError =>
        { shown with progressWidth := 0,
                     progressText := "Upload failed. Please try again.",
                     hideDelay := some 3000 }

/-- The scheduled hide timeout fires: `progressContainer.style.display = 'none'`. -/
def fireHideDelay (s : UploadAreaState) : UploadAreaState :=
  match s.hideDelay with
  | some _ => { s with progressVisible := false, hideDelay := none }
  | none => s

/-- Outcome of the dropzone variant's upload: a response with its `res.ok`
and `data.ok` flags, or an exception thrown inside the `try`. -/
inductive DropOutcome where
  | response : Bool → Bool → DropOutcome
  | thrown : DropOutcome
deriving DecidableEq, Repr

/-- Visible effect of the dropzone upload besides the class changes. -/
inductive DropEffect where
  | fileAppended
  | alertServerError
  | alertUploadError
deriving DecidableEq, Repr

/-- The `classList.add` method: appends the class only when absent. -/
def classAdd (cs : List String) (c : String) : List String :=
  if c ∈ cs then cs else cs ++ [c]

/-- The `classList.remove` method: removes every occurrence of the class. -/
def classRemove (cs : List String) (c : String) : List String :=
  cs.filter fun x => x ≠ c

/-- Result of one `uploadFile` call on a dropzone: its visible effect, the
zone's class list while the request is in flight, and the class list after
the `finally` block ran. -/
structure DropUploadResult where
  effect : DropEffect
  duringClasses : List String
  finalClasses : List String
deriving DecidableEq, Repr

/-- src/unnamed/part_000, uploadFile: `zone.classList.add("uploading")`
before the `fetch`; on `res.ok && data.ok` append the file entry, otherwise
alert the server error; on a thrown exception alert "Upload error"; in every
path the `finally` block runs `zone.classList.remove("uploading")`. -/
def uploadFile (o : DropOutcome) (cs : List String) : DropUploadResult :=
  let during := classAdd cs "uploading"
  match o with
  | .response resOk dataOk =>
    if resOk && dataOk then
      { effect := .fileAppended, duringClasses := during,
        finalClasses := classRemove during "uploading" }
    else
      { effect := .alertServerError, duringClasses := during,
        finalClasses := classRemove during "uploading" }
  | .thrown =>
      { effect := .alertUploadError, duringClasses := during,
        finalClasses := classRemove during "uploading" }

end Part000

/-
  Theorems. Helper lemmas come first; each claim of the specification is
  then settled by one theorem.
-/

theorem classAdd_self_mem (cs : List String) (c : String) :
    c ∈ Part000.classAdd cs c := by
  unfold Part000.classAdd
  split
  · assumption
  · simp

theorem classRemove_self_not_mem (cs : List String) (c : String) :
    c ∉ Part000.classRemove cs c := by
  simp [Part000.classRemove]

theorem switchClick_currentTheme (mobile : Bool) (s : ScriptJs.ThemeState) :
    ScriptJs.switchClick mobile s =
      ScriptJs.applyTheme mobile
        (if s.currentTheme = "matrix" then "light" else "matrix")
        { s with currentTheme :=
            if s.currentTheme = "matrix" then "light" else "matrix" } := by
  by_cases h1 : s.currentTheme = "matrix"
  · simp [ScriptJs.switchClick, ScriptJs.jsIndexOf, ScriptJs.jsIndexOfAux,
          ScriptJs.themeOrder, h1]
  · by_cases h2 : s.currentTheme = "light"
    · simp [ScriptJs.switchClick, ScriptJs.jsIndexOf, ScriptJs.jsIndexOfAux,
            ScriptJs.themeOrder, h1, h2]
    · simp [ScriptJs.switchClick, ScriptJs.jsIndexOf, ScriptJs.jsIndexOfAux,
            ScriptJs.themeOrder, h1, h2]

/-- C1 counterexample: in the stream variant, handling a single reminder
whose popup the user dismisses issues `POST /reminded/1` twice — once on
receipt and once from the dismiss handler — so the acknowledgment is not
fired at most once. -/
theorem C1_counterexample :
    ¬ remindedCount
        (ScriptJs.handleReminder { id := 1, title := none, content := none }
          PopupAction.dismiss) 1 ≤ 1 := by
  decide

/-- C1 (amended): in both variants, handling one reminder issues the
`POST /reminded/{id}` acknowledgment exactly once when the popup merely
auto-closes, and exactly twice when the user dismisses it or marks it done
(once on receipt plus once from the click handler); never more than twice. -/
theorem C1_reminded_fire_count (r : Reminder) (a : PopupAction) :
    remindedCount (ScriptJs.handleReminder r a) r.id
      = (if a = PopupAction.autoCloseOnly then 1 else 2) ∧
    remindedCount (Part000.handleReminder r a) r.id
      = (if a = PopupAction.autoCloseOnly then 1 else 2) := by
  cases a <;>
    simp [remindedCount, isRemindedPost, ScriptJs.handleReminder,
          Part000.handleReminder, ScriptJs.receiptRequests,
          Part000.receiptRequests, ScriptJs.popupActionRequests,
          Part000.popupActionRequests]

/-- C2 counterexample: after the dismiss or mark-done handler closes the
popup early, the 2-minute auto-close timeout is still pending — neither
source file calls `clearTimeout` — so a timer does remain pending against
the already-closed popup. -/
theorem C2_counterexample :
    ¬ ((userClose showPopupState).timerPending = false) := by
  decide

/-- C2 (amended): the auto-close timeout is not cancelled when the popup is
closed early by the dismiss or mark-done handler — it remains pending — but
it is rendered without effect: popup removal is idempotent, so the state
after show, early close and late timer fire equals the state after show and
timer fire alone, with the popup detached. -/
theorem C2_timer_harmless :
    (userClose showPopupState).timerPending = true ∧
    timerFire (userClose showPopupState) = timerFire showPopupState ∧
    (timerFire (userClose showPopupState)).attached = false := by
  decide

/-- C3: the stream variant and the polling variant are equivalent per
reminder: for every reminder record they compute the same popup title text
and content text, and the `POST /reminded/{id}` requests issued on receipt
are the same. -/
theorem C3_variants_agree (r : Reminder) :
    ScriptJs.popupDisplay r.title r.content
      = Part000.popupDisplay r.title r.content ∧
    remindedPosts (ScriptJs.receiptRequests r)
      = remindedPosts (Part000.receiptRequests r) := by
  exact ⟨rfl, rfl⟩

/-- C4: in both variants the popup content text (and browser notification
body) is the reminder's content when non-empty and at most 200 characters,
its first 200 characters followed by an ellipsis when longer, and
"No content" when empty or absent; the displayed title is the reminder's
title when non-empty and "Reminder" otherwise. -/
theorem C4_display_text (t c : String) (t? c? : Option String) :
    ScriptJs.popupDisplay none none
      = { title := "Reminder", content := "No content" } ∧
    ScriptJs.popupDisplay (some "") (some "")
      = { title := "Reminder", content := "No content" } ∧
    (t ≠ "" → (ScriptJs.popupDisplay (some t) (some c)).title = t) ∧
    (c ≠ "" → c.length ≤ 200 →
      (ScriptJs.popupDisplay (some t) (some c)).content = c) ∧
    (c.length > 200 →
      (ScriptJs.popupDisplay (some t) (some c)).content = c.take 200 ++ "…") ∧
    ScriptJs.notificationBody (some c)
      = (ScriptJs.popupDisplay (some t) (some c)).content ∧
    ScriptJs.notificationBody none = "No content" ∧
    ScriptJs.notificationTitle t?
      = (ScriptJs.popupDisplay t? (some c)).title ∧
    Part000.popupDisplay t? c? = ScriptJs.popupDisplay t? c? ∧
    Part000.notificationBody c? = ScriptJs.notificationBody c? ∧
    Part000.notificationTitle t? = ScriptJs.notificationTitle t? := by
  refine ⟨rfl, rfl, ?_, ?_, ?_, rfl, rfl, rfl, rfl, rfl, rfl⟩
  · intro ht
    simp [ScriptJs.popupDisplay, jsOrStr, ht]
  · intro hc hlen
    have hgt : ¬ (c.length > 200) := by omega
    simp [ScriptJs.popupDisplay, jsTruthyStr, hc, hgt]
  · intro hlen
    have hc : c ≠ "" := by
      intro h
      rw [h] at hlen
      simp at hlen
    simp [ScriptJs.popupDisplay, jsTruthyStr, hc, hlen]

/-- C4 witness: a concrete short, non-empty reminder is displayed verbatim. -/
theorem C4_display_text_witness :
    (ScriptJs.popupDisplay (some "T") (some "hi")).title = "T" ∧
    (ScriptJs.popupDisplay (some "T") (some "hi")).content = "hi" := by
  have h := C4_display_text "T" "hi" none none
  exact ⟨h.2.2.1 (by decide), h.2.2.2.1 (by decide) (by decide)⟩

/-- C5: in the file-attachment-area variant, with a non-empty file list an
`ok` response sets the bar to 100% and "Upload complete!" and appends a file
item with the returned `file_id` and `filename`; a response with `ok` false
or a failed request resets the bar to 0% with "Upload failed. Please try
again."; in both outcomes the scheduled hide timeout leaves the progress
container hidden; with an empty file list nothing changes. -/
theorem C5_handleFiles_outcomes (n : Nat) (d : Part000.UploadRes)
    (s : Part000.UploadAreaState) :
    (n ≠ 0 → d.ok = true →
      Part000.handleFiles n (.response d) s =
        { progressVisible := true, progressWidth := 100,
          progressText := "Upload complete!",
          attachedFiles := s.attachedFiles
            ++ [{ file_id := d.file_id, filename := d.filename }],
          hideDelay := some 1500 }) ∧
    (n ≠ 0 → d.ok = false →
      Part000.handleFiles n (.response d) s =
        { progressVisible := true, progressWidth := 0,
          progressText := "Upload failed. Please try again.",
          attachedFiles := s.attachedFiles, hideDelay := some 3000 }) ∧
    (n ≠ 0 →
      Part000.handleFiles n .networkError s =
        { progressVisible := true, progressWidth := 0,
          progressText := "Upload failed. Please try again.",
          attachedFiles := s.attachedFiles, hideDelay := some 3000 }) ∧
    (n ≠ 0 →
      (Part000.fireHideDelay
        (Part000.handleFiles n (.response d) s)).progressVisible = false) ∧
    (n ≠ 0 →
      (Part000.fireHideDelay
        (Part000.handleFiles n .networkError s)).progressVisible = false) ∧
    Part000.handleFiles 0 (.response d) s = s ∧
    Part000.handleFiles 0 .networkError s = s := by
  refine ⟨?_, ?_, ?_, ?_, ?_, ?_, ?_⟩
  · intro hn hok
    simp [Part000.handleFiles, hn, hok]
  · intro hn hok
    simp [Part000.handleFiles, hn, hok]
  · intro hn
    simp [Part000.handleFiles, hn]
  · intro hn
    cases hok : d.ok <;>
      simp [Part000.handleFiles, Part000.fireHideDelay, hn, hok]
  · intro hn
    simp [Part000.handleFiles, Part000.fireHideDelay, hn]
  · simp [Part000.handleFiles]
  · simp [Part000.handleFiles]

/-- C5 witness: a concrete successful upload of one file into an empty
attachment area. -/
theorem C5_handleFiles_outcomes_witness :
    Part000.handleFiles 1
        (.response { ok := true, file_id := 7, filename := "a.txt" })
        { progressVisible := false, progressWidth := 0, progressText := "",
          attachedFiles := [], hideDelay := none } =
      { progressVisible := true, progressWidth := 100,
        progressText := "Upload complete!",
        attachedFiles := [{ file_id := 7, filename := "a.txt" }],
        hideDelay := some 1500 } := by
  exact (C5_handleFiles_outcomes 1
    { ok := true, file_id := 7, filename := "a.txt" }
    { progressVisible := false, progressWidth := 0, progressText := "",
      attachedFiles := [], hideDelay := none }).1 (by decide) rfl

/-- C6: in the dropzone variant every `uploadFile` call carries the
"uploading" class on the zone while the request is in flight and, whatever
the outcome — success, server-reported error, or thrown exception — the
`finally` block removes it, so the zone never keeps the class afterwards. -/
theorem C6_uploading_class (o : Part000.DropOutcome) (cs : List String) :
    "uploading" ∈ (Part000.uploadFile o cs).duringClasses ∧
    "uploading" ∉ (Part000.uploadFile o cs).finalClasses := by
  have key : ∀ du fi : List String,
      du = Part000.classAdd cs "uploading" →
      fi = Part000.classRemove (Part000.classAdd cs "uploading") "uploading" →
      "uploading" ∈ du ∧ "uploading" ∉ fi := by
    intro du fi hdu hfi
    rw [hdu, hfi]
    exact ⟨classAdd_self_mem cs "uploading",
           classRemove_self_not_mem (Part000.classAdd cs "uploading") "uploading"⟩
  cases o with
  | response resOk dataOk =>
      cases resOk <;> cases dataOk <;> exact key _ _ rfl rfl
  | thrown => exact key _ _ rfl rfl

/-- C7: the selected theme is persisted: in the multi-theme variant every
switch-button click stores the new theme name under "themeName" and a page
load from that storage re-applies the same theme (same name, same
stylesheet href); in the dark-toggle variant every click stores "dark" or
"light" under "theme" matching the body class, and a page load from that
storage restores the same class. -/
theorem C7_theme_persistence (mobile : Bool) (s : ScriptJs.ThemeState)
    (d : Part000.DarkThemeState) :
    (ScriptJs.switchClick mobile s).storedThemeName
      = some (ScriptJs.switchClick mobile s).currentTheme ∧
    (ScriptJs.initThemeLoad mobile
        (ScriptJs.switchClick mobile s).storedThemeName).currentTheme
      = (ScriptJs.switchClick mobile s).currentTheme ∧
    (ScriptJs.initThemeLoad mobile
        (ScriptJs.switchClick mobile s).storedThemeName).themeLinkHref
      = (ScriptJs.switchClick mobile s).themeLinkHref ∧
    (Part000.themeToggleClick d).storedTheme
      = some (if (Part000.themeToggleClick d).darkClass then "dark" else "light") ∧
    (Part000.initThemeLoad (Part000.themeToggleClick d).storedTheme).darkClass
      = (Part000.themeToggleClick d).darkClass := by
  rw [switchClick_currentTheme]
  refine ⟨?_, ?_, ?_, ?_, ?_⟩
  · by_cases h1 : s.currentTheme = "matrix" <;>
      simp [ScriptJs.applyTheme, ScriptJs.themes, h1]
  · by_cases h1 : s.currentTheme = "matrix" <;>
      simp [ScriptJs.applyTheme, ScriptJs.initThemeLoad, ScriptJs.themes,
            jsOrStr, h1]
  · by_cases h1 : s.currentTheme = "matrix" <;>
      simp [ScriptJs.applyTheme, ScriptJs.initThemeLoad, ScriptJs.themes,
            jsOrStr, h1]
  · cases hd : d.darkClass <;>
      simp [Part000.themeToggleClick, hd]
  · cases hd : d.darkClass <;>
      simp [Part000.themeToggleClick, Part000.initThemeLoad, hd]

/-- C8: in the multi-theme variant, after any switch-button click the
current theme is in the cycle order (so never "default"), the name stored
under "themeName" is a key of the theme table, and from a theme already in
the cycle order two consecutive clicks return to it. -/
theorem C8_theme_cycle (mobile : Bool) (s : ScriptJs.ThemeState) :
    (ScriptJs.switchClick mobile s).currentTheme ∈ ScriptJs.themeOrder ∧
    (ScriptJs.switchClick mobile s).currentTheme ≠ "default" ∧
    (∃ n, (ScriptJs.switchClick mobile s).storedThemeName = some n ∧
      (ScriptJs.themes n).isSome = true) ∧
    (s.currentTheme ∈ ScriptJs.themeOrder →
      (ScriptJs.switchClick mobile (ScriptJs.switchClick mobile s)).currentTheme
        = s.currentTheme) := by
  refine ⟨?_, ?_, ?_, ?_⟩
  · rw [switchClick_currentTheme]
    by_cases h1 : s.currentTheme = "matrix" <;>
      simp [ScriptJs.applyTheme, ScriptJs.themes, ScriptJs.themeOrder, h1]
  · rw [switchClick_currentTheme]
    by_cases h1 : s.currentTheme = "matrix" <;>
      simp [ScriptJs.applyTheme, ScriptJs.themes, h1]
  · rw [switchClick_currentTheme]
    by_cases h1 : s.currentTheme = "matrix" <;>
      simp [ScriptJs.applyTheme, ScriptJs.themes, h1]
  · intro hmem
    rw [switchClick_currentTheme, switchClick_currentTheme]
    simp only [ScriptJs.themeOrder, List.mem_cons, List.mem_singleton,
      List.not_mem_nil, or_false] at hmem
    rcases hmem with h1 | h1
    · simp [ScriptJs.applyTheme, ScriptJs.themes, h1]
    · simp [ScriptJs.applyTheme, ScriptJs.themes, h1]

/-- C8 witness: starting from the "matrix" theme, two clicks return to
"matrix". -/
theorem C8_theme_cycle_witness :
    ("matrix" : String) ∈ ScriptJs.themeOrder ∧
    (ScriptJs.switchClick false (ScriptJs.switchClick false
        { currentTheme := "matrix", storedThemeName := none,
          themeLinkHref := "" })).currentTheme = "matrix" := by
  refine ⟨by decide, ?_⟩
  exact (C8_theme_cycle false
    { currentTheme := "matrix", storedThemeName := none,
      themeLinkHref := "" }).2.2.2 (by decide)

/-- C9: in the stream variant, handling a message of type `connected`,
`heartbeat` or `error` issues no HTTP request and shows no popup; indeed
any message other than a `reminders` message has no page-visible effect. -/
theorem C9_stream_frame (s : String) (m : ScriptJs.StreamMessage) :
    ScriptJs.onmessage ScriptJs.StreamMessage.connected
      = { requests := [], popupsShown := [] } ∧
    ScriptJs.onmessage ScriptJs.StreamMessage.heartbeat
      = { requests := [], popupsShown := [] } ∧
    ScriptJs.onmessage (ScriptJs.StreamMessage.error s)
      = { requests := [], popupsShown := [] } ∧
    (ScriptJs.isReminders m = false →
      ScriptJs.onmessage m = { requests := [], popupsShown := [] }) := by
  refine ⟨rfl, rfl, rfl, ?_⟩
  cases m <;> intro h
  · rfl
  · rfl
  · exact absurd h (by simp [ScriptJs.isReminders])
  · rfl
  · rfl

/-- C9 witness: a concrete heartbeat message has no effect. -/
theorem C9_stream_frame_witness :
    ScriptJs.onmessage ScriptJs.StreamMessage.heartbeat
      = { requests := [], popupsShown := [] } := by
  exact (C9_stream_frame "x" ScriptJs.StreamMessage.heartbeat).2.2.2 rfl

/-- C10: after every click of the view-toggle button exactly one of the two
note containers is displayed as "block" and the other as "none", the button
label is the text naming the currently hidden view, and the search input is
cleared. -/
theorem C10_view_toggle (va vc : String) (s : Part000.NoteViewState) :
    ((Part000.switchView va vc s).activeDisplay = "block" ∧
       (Part000.switchView va vc s).completedDisplay = "none" ∨
     (Part000.switchView va vc s).activeDisplay = "none" ∧
       (Part000.switchView va vc s).completedDisplay = "block") ∧
    (Part000.switchView va vc s).toggleLabel
      = (if (Part000.switchView va vc s).activeDisplay = "none" then va else vc) ∧
    (Part000.switchView va vc s).searchValue = "" := by
  cases h : s.showingCompleted <;>
    simp [Part000.switchView, h]

end Notepad
